import Mathlib

/-!
Verification development for the face-data-collection and gallery-management
application.  The Python sources are shallowly embedded: pure helpers become
Lean functions, the stateful HTTP handlers become functions over explicit
environment records that carry the outcome of every external effect (file
saves, transcoder runs, read-backs), and the opaque ML components (face
detector, embedding network, pose estimator, cosine similarity) are passed in
as capability parameters, following the capability contracts of the spec.
Numeric image metrics and similarities are modelled over the rationals; JSON
documents are modelled as their parsed values (every session document in the
repository is written with `json.dump(..., indent=2)`, so the serialized byte
image is determined by the value).
-/

namespace FaceGallery

/-! ## Registration-number parsing (data_collection/server/app.py) -/

/-- Python string slice `s[a:b]` for `a ≤ b` (clamped at the end, as in Python). -/
def pySlice (s : String) (a b : Nat) : String :=
  String.mk ((s.toList.drop a).take (b - a))

/-- Decimal value of a digit list, `none` if empty or not all digits. -/
def digitsVal (cs : List Char) : Option Nat :=
  if cs = [] then none
  else if cs.all Char.isDigit then
    some (cs.foldl (fun n c => n * 10 + (c.toNat - 48)) 0)
  else none

/-- Model of Python `int(s)` on a short string: surrounding spaces and a single
leading sign are accepted, otherwise every character must be a decimal digit;
any other input raises `ValueError`, modelled as `none`. -/
def pyIntOfStr (s : String) : Option Int :=
  let cs := ((s.toList.dropWhile (· = ' ')).reverse.dropWhile (· = ' ')).reverse
  match cs with
  | '-' :: rest => (digitsVal rest).map (fun n => -(n : Int))
  | '+' :: rest => (digitsVal rest).map (fun n => (n : Int))
  | rest => (digitsVal rest).map (fun n => (n : Int))

/-- `extract_year_from_regno`: positions 4..5 are parsed as a two-digit
admission year; values ≥ 90 map to 19xx, otherwise 20xx; graduation is
admission + 4.  A short string or a failed parse falls back to
`("2023", "2027")` — the `except (ValueError, IndexError)` branch. -/
def extractYearFromRegno (regno : String) : String × String :=
  if regno.length ≥ 6 then
    match pyIntOfStr (pySlice regno 4 6) with
    | some year =>
      let admissionYear : Int := if year ≥ 90 then 1900 + year else 2000 + year
      (toString admissionYear, toString (admissionYear + 4))
    | none => ("2023", "2027")
  else ("2023", "2027")

/-- `get_graduation_year`. -/
def getGraduationYear (regno : String) : String :=
  (extractYearFromRegno regno).2

/-- `get_year_display`: `"{admission} - {graduation}"`. -/
def getYearDisplay (regno : String) : String :=
  (extractYearFromRegno regno).1 ++ " - " ++ (extractYearFromRegno regno).2

/-- `extract_dept_code_from_regno`: positions 6..8, with no numeric
validation; `None` exactly when the string is shorter than 9. -/
def extractDeptCodeFromRegno (regno : String) : Option String :=
  if regno.length ≥ 9 then some (pySlice regno 6 9) else none

/-! ## Session documents and `/api/session/start` -/

/-- The session document, modelled as its parsed JSON value with the fields
written by `start_session` and `upload_video`. -/
structure SessionDoc where
  sessionId : String
  regNo : String
  name : String
  year : String
  admissionYear : String
  yearDisplay : String
  dept : String
  deptId : String
  batch : String
  startTime : String
  videoUploaded : Bool
  facesExtracted : Bool
  facesOrganized : Bool
  videoPath : String
  facesCount : Nat
  uploadTime : Option String
deriving DecidableEq

inductive StartErr
  | missingFields
  | invalidRegno
deriving DecidableEq

/-- `start_session`: requires a truthy student id and department name, a
registration number of length ≥ 9 (so that the department code extracts),
then writes a fresh session document with `videoUploaded = false`. -/
def startSession (studentId name yearDisplay deptName sessionId startTime : String) :
    Except StartErr SessionDoc :=
  if studentId = "" ∨ deptName = "" then .error .missingFields
  else
    match extractDeptCodeFromRegno studentId with
    | none => .error .invalidRegno
    | some deptCode =>
      let graduationYear := getGraduationYear studentId
      let admissionYear := (extractYearFromRegno studentId).1
      .ok { sessionId := sessionId, regNo := studentId, name := name,
            year := graduationYear, admissionYear := admissionYear,
            yearDisplay := yearDisplay, dept := deptName, deptId := deptCode,
            batch := "Batch" ++ graduationYear, startTime := startTime,
            videoUploaded := false, facesExtracted := false,
            facesOrganized := false, videoPath := "", facesCount := 0,
            uploadTime := none }

/-! ## Video upload and transcoding (`upload_video`) -/

/-- Outcome of a single `subprocess.run` of ffmpeg: zero exit, nonzero exit,
or `subprocess.TimeoutExpired` raised. -/
inductive TOut
  | ok
  | err
  | timedOut
deriving DecidableEq

/-- One ffmpeg invocation as built by `upload_video`: the audio variants carry
`-movflags +faststart`; the no-audio variant (`acodec = none`) passes `-an`
and no faststart flag.  Every invocation passes `timeout=120` seconds. -/
structure FfmpegCmd where
  inputPath : String
  outputPath : String
  vcodec : String
  acodec : Option String
  faststart : Bool
  timeoutSec : Nat
deriving DecidableEq

def mkAudioCmd (inp outp v a : String) : FfmpegCmd :=
  { inputPath := inp, outputPath := outp, vcodec := v, acodec := some a,
    faststart := true, timeoutSec := 120 }

def mkNoAudioCmd (inp outp v : String) : FfmpegCmd :=
  { inputPath := inp, outputPath := outp, vcodec := v, acodec := none,
    faststart := false, timeoutSec := 120 }

/-- The ordered encoder lists of `upload_video`. -/
def videoEncoders : List String :=
  ["mpeg4", "libopenh264", "libvpx", "libvpx_vp8", "libvpx_vp9", "mjpeg"]

def audioEncoders : List String :=
  ["mp3", "libmp3lame", "pcm_s16le", "aac"]

/-- Result of the codec search: first variant returning zero; all variants
exhausted; or a `TimeoutExpired` raised at some variant, which propagates out
of the search loop to the exception clause of the handler. -/
inductive ConvOutcome
  | success (v : String) (a : Option String)
  | exhausted
  | timedOut (v : String) (a : Option String)
deriving DecidableEq

/-- The inner audio-codec loop for a fixed video codec: stop at the first
variant that returns zero; a raised timeout aborts; a nonzero exit moves to
the next audio codec; exhaustion falls through to the no-audio attempt. -/
def tryAudioCodecs (run : FfmpegCmd → TOut) (inp outp v : String) :
    List String → ConvOutcome
  | [] => .exhausted
  | a :: rest =>
    match run (mkAudioCmd inp outp v a) with
    | .ok => .success v (some a)
    | .timedOut => .timedOut v (some a)
    | .err => tryAudioCodecs run inp outp v rest

/-- The outer video-codec loop: for each video codec try every audio codec,
then the no-audio variant; continue with the next video codec only when every
variant returned a nonzero exit. -/
def tryVideoCodecs (run : FfmpegCmd → TOut) (inp outp : String) :
    List String → ConvOutcome
  | [] => .exhausted
  | v :: rest =>
    match tryAudioCodecs run inp outp v audioEncoders with
    | .success v' a => .success v' a
    | .timedOut v' a => .timedOut v' a
    | .exhausted =>
      match run (mkNoAudioCmd inp outp v) with
      | .ok => .success v none
      | .timedOut => .timedOut v none
      | .err => tryVideoCodecs run inp outp rest

/-- Everything external the upload handler observes, as injected outcomes:
the stored session document (if the session file exists and parses), the
clock, whether the saved WebM exists and its size, ffmpeg availability, the
outcome of each transcoder invocation, existence and size of the produced MP4,
and whether the verification read-back of the just-written JSON succeeds. -/
structure UploadEnv where
  store : Option SessionDoc
  now : String
  webmSaveOk : Bool
  webmSize : Nat
  ffmpegOk : Bool
  run : FfmpegCmd → TOut
  mp4Exists : Bool
  mp4Size : Nat
  verifyReadOk : Bool

structure UploadForm where
  studentId : String
  name : String
  yearDisplay : String
  deptName : String
deriving DecidableEq

/-- The response classes of the handler. `okUp` is the single 200 response; all
others are 4xx/5xx failure responses. -/
inductive UpStatus
  | okUp
  | errStudentIdMissing
  | errBadRegno
  | errNoSession
  | failWebmSave
  | failWebmEmpty
  | failFfmpegMissing
  | failAllCodecs
  | failTimedOut
  | failMp4Missing
  | failMp4Empty
  | failVerify
deriving DecidableEq

def dataDirPath : String := "data/student_data"

def studentDirPath (deptCode gradYear studentId : String) : String :=
  dataDirPath ++ "/" ++ deptCode ++ "_" ++ gradYear ++ "/" ++ studentId

/-- The session-document update performed after a successful conversion
(lines 557–573 of app.py); the `name` update is commented out in the source. -/
def updatedDoc (pre : SessionDoc) (form : UploadForm)
    (deptCode gradYear now mp4Path : String) : SessionDoc :=
  { pre with
    videoUploaded := true
    uploadTime := some now
    facesExtracted := false
    facesOrganized := false
    facesCount := 0
    videoPath := mp4Path
    dept := form.deptName
    year := if gradYear ≠ "" then gradYear else pre.year
    deptId := if deptCode ≠ "" then deptCode else pre.deptId
    yearDisplay := if form.yearDisplay ≠ "" then form.yearDisplay else pre.yearDisplay }

/-- `upload_video`, returning the response class and the session document
value on disk after the handler returns.  On every failure branch before the
JSON write the document is untouched, and the re-attempt restore rewrites the
snapshot value, so the stored value is the pre-upload one; the verification
branch (read-back of the freshly written JSON fails) returns a failure
response without restoring, leaving the new document. -/
def uploadVideo (env : UploadEnv) (form : UploadForm) :
    UpStatus × Option SessionDoc :=
  if form.studentId = "" then (.errStudentIdMissing, env.store)
  else
    match extractDeptCodeFromRegno form.studentId with
    | none => (.errBadRegno, env.store)
    | some deptCode =>
      let gradYear := getGraduationYear form.studentId
      let sdir := studentDirPath deptCode gradYear form.studentId
      let webmPath := sdir ++ "/" ++ form.studentId ++ ".webm"
      let mp4Path := sdir ++ "/" ++ form.studentId ++ ".mp4"
      match env.store with
      | none => (.errNoSession, none)
      | some pre =>
        if ¬ env.webmSaveOk then (.failWebmSave, some pre)
        else if env.webmSize = 0 then (.failWebmEmpty, some pre)
        else if ¬ env.ffmpegOk then (.failFfmpegMissing, some pre)
        else
          match tryVideoCodecs env.run webmPath mp4Path videoEncoders with
          | .timedOut _ _ => (.failTimedOut, some pre)
          | .exhausted => (.failAllCodecs, some pre)
          | .success _ _ =>
            if ¬ env.mp4Exists then (.failMp4Missing, some pre)
            else if env.mp4Size = 0 then (.failMp4Empty, some pre)
            else
              let newDoc := updatedDoc pre form deptCode gradYear env.now mp4Path
              if env.verifyReadOk then (.okUp, some newDoc)
              else (.failVerify, some newDoc)

/-! ## Video quality gate (src/quality_checker.py) -/

/-- Thresholds from `VideoQualityChecker.__init__`. -/
def minBlurScore : ℚ := 15
def minContrast : ℚ := 20
def minFaceSize : ℚ := 60
def maxMotionBlur : ℚ := 80

/-- An axis-aligned face bounding box as returned by the detector. -/
structure FaceBox where
  x1 : Int
  y1 : Int
  x2 : Int
  y2 : Int
deriving DecidableEq

/-- `max(width, height)` — the longer side in pixels. -/
def faceSize (b : FaceBox) : Int :=
  max (b.x2 - b.x1) (b.y2 - b.y1)

/-- One successfully decoded sampled frame, carrying the outputs of the
capability calls made on it: the detector boxes at confidence 0.65 and the
three image metrics (Laplacian-variance blur, grayscale-std contrast, and the
Canny edge-density motion-blur proxy). -/
structure FrameData where
  faces : List FaceBox
  blur : ℚ
  contrast : ℚ
  motionBlur : ℚ
deriving DecidableEq

/-- Mutable state of the per-frame loop in `check_single_video_quality`. -/
structure QCLoopState where
  totalFaces : Nat
  multipleFacesCount : Nat
  multipleFacesCritical : Bool
  blurScores : List ℚ
  contrastScores : List ℚ
  motionBlurScores : List ℚ
  facesData : List FaceBox
  problemFlags : List (Nat × List String)
deriving DecidableEq

def initQCState : QCLoopState :=
  { totalFaces := 0, multipleFacesCount := 0, multipleFacesCritical := false,
    blurScores := [], contrastScores := [], motionBlurScores := [],
    facesData := [], problemFlags := [] }

/-- Flags collected for a single-face (or metric-bearing) frame, in the order
the source appends them: blur, contrast, motion blur, then one size flag per
detected box. -/
def frameFlags (f : FrameData) : List String :=
  (if f.blur < minBlurScore then ["Blurry frame"] else []) ++
  (if f.contrast < minContrast then ["Low contrast"] else []) ++
  (if f.motionBlur > maxMotionBlur then ["Motion blur detected"] else []) ++
  (f.faces.filterMap (fun b =>
    if (faceSize b : ℚ) < minFaceSize then some "Face too small" else none))

/-- The frame loop.  A frame with more than one detected face records the
critical flag and `break`s — no metric of that frame and no later frame
contributes anything further.  A frame with at least one face contributes its
metrics and its boxes; a frame with none contributes a "No face detected"
flag. -/
def processFrames (st : QCLoopState) (idx : Nat) : List FrameData → QCLoopState
  | [] => st
  | f :: rest =>
    if f.faces.length > 0 then
      let st1 := { st with totalFaces := st.totalFaces + f.faces.length }
      if f.faces.length > 1 then
        { st1 with
          multipleFacesCount := st1.multipleFacesCount + 1
          multipleFacesCritical := true
          problemFlags := st1.problemFlags ++
            [(idx, ["Multiple faces detected (critical fail)"])] }
      else
        let flags := frameFlags f
        let st2 :=
          { st1 with
            blurScores := st1.blurScores ++ [f.blur]
            contrastScores := st1.contrastScores ++ [f.contrast]
            motionBlurScores := st1.motionBlurScores ++ [f.motionBlur]
            facesData := st1.facesData ++ f.faces
            problemFlags :=
              if flags ≠ [] then st1.problemFlags ++ [(idx, flags)]
              else st1.problemFlags }
        processFrames st2 (idx + 1) rest
    else
      processFrames
        { st with problemFlags := st.problemFlags ++ [(idx, ["No face detected"])] }
        (idx + 1) rest

/-- `np.mean` over a list of rationals, `0` for the empty list (the source guard
`if scores else 0`). -/
def listAvg (l : List ℚ) : ℚ :=
  if l = [] then 0 else l.sum / l.length

/-- The pose-estimation capability: `estimate_face_pose` returns the 4-tuple
`(label, yaw, pitch, roll)`. -/
def PoseCap : Type := FrameData → FaceBox → String × ℚ × ℚ × ℚ

/-- `check_pose_diversity`.  The source compares the returned 4-tuple `pose`
against the string `"unknown"`; in Python a tuple never equals a string, so
the guard is always true and the whole tuple is added to the set.  The
`list(set(...))` is modelled by `dedup` (only membership is ever used). -/
def checkPoseDiversity (pose : PoseCap) (frames : List FrameData)
    (facesData : List FaceBox) : List (String × ℚ × ℚ × ℚ) :=
  ((frames.zip facesData).map (fun p => pose p.1 p.2)).dedup

/-- Python `==` between a pose 4-tuple and a required-pose string: always
false. -/
def poseTupleEqStr (_ : String × ℚ × ℚ × ℚ) (_ : String) : Bool := false

def requiredPoses : List String := ["front", "side"]

def joinCommaSep : List String → String
  | [] => ""
  | [s] => s
  | s :: rest => s ++ ", " ++ joinCommaSep rest

/-- The numeric `details` record of the result. -/
structure QCDetails where
  totalFaces : Nat
  multipleFacesFrames : Nat
  avgBlurScore : ℚ
  avgContrast : ℚ
  avgMotionBlur : ℚ
  avgFaceSize : ℚ
  framesAnalyzed : Nat
  problemFlags : List (Nat × List String)
deriving DecidableEq

/-- The result dictionary of `check_single_video_quality` (the failed-frames
bookkeeping fields, which depend only on `save_failed_frames`, are omitted). -/
structure QCResult where
  overallQuality : String
  category : String
  qualityIssues : List String
  criticalIssues : List String
  majorIssues : List String
  minorIssues : List String
  errorMsg : Option String
  details : Option QCDetails
deriving DecidableEq

def qcErrorResult (msg : String) : QCResult :=
  { overallQuality := "fail", category := "fail", qualityIssues := [],
    criticalIssues := [], majorIssues := [], minorIssues := [],
    errorMsg := some msg, details := none }

/-- Everything `check_single_video_quality` computes after the frame loop,
from the loop state, the number of sampled frames, and the pose categories.
Note the source computes `category` and `all_issues` from the
critical/major/minor lists and only afterwards runs the pose-diversity step,
appending any missing-pose entry to `minor_issues` — after the category has
been fixed. -/
def qcAssemble (framesAnalyzed : Nat) (st : QCLoopState)
    (poseCats : List (String × ℚ × ℚ × ℚ)) : QCResult :=
    let avgBlur := listAvg st.blurScores
    let avgContrast := listAvg st.contrastScores
    let avgMotionBlur := listAvg st.motionBlurScores
    let avgFaceSize := listAvg (st.facesData.map (fun b => (faceSize b : ℚ)))
    let criticalIssues :=
      (if st.totalFaces < 3 then ["No face detected or very few faces"] else []) ++
      (if st.multipleFacesCritical then
        ["Multiple faces detected in at least one frame (critical fail)"] else [])
    let majorIssues :=
      (if avgBlur < minBlurScore then ["Video too blurry"] else []) ++
      (if avgContrast < minContrast then ["Poor lighting/contrast"] else []) ++
      (if avgFaceSize < minFaceSize then ["Face too small in frame"] else [])
    let minorIssues0 :=
      (if st.multipleFacesCount > 0 ∧ ¬ st.multipleFacesCritical then
        ["Multiple people in some frames"] else []) ++
      (if avgMotionBlur > maxMotionBlur then ["Some motion blur detected"] else [])
    let category :=
      if criticalIssues ≠ [] then "fail"
      else if majorIssues ≠ [] then "borderline"
      else if minorIssues0 ≠ [] then "borderline"
      else "pass"
    let allIssues := criticalIssues ++ majorIssues ++ minorIssues0
    let missingPoses :=
      requiredPoses.filter (fun p => ¬ poseCats.any (fun t => poseTupleEqStr t p))
    let minorIssues :=
      if missingPoses ≠ [] then
        minorIssues0 ++ ["Missing face angles: " ++ joinCommaSep missingPoses]
      else minorIssues0
    { overallQuality := if category = "pass" then "pass" else "fail"
      category := category
      qualityIssues := allIssues
      criticalIssues := criticalIssues
      majorIssues := majorIssues
      minorIssues := minorIssues
      errorMsg := none
      details := some
        { totalFaces := st.totalFaces
          multipleFacesFrames := st.multipleFacesCount
          avgBlurScore := avgBlur
          avgContrast := avgContrast
          avgMotionBlur := avgMotionBlur
          avgFaceSize := avgFaceSize
          framesAnalyzed := framesAnalyzed
          problemFlags := st.problemFlags } }

/-- `check_single_video_quality` over the decoded sampled frames: guard
clauses, the frame loop (which short-circuits on a multi-face frame), then
the assembly above with the pose-diversity step. -/
def checkSingleVideoQuality (pose : PoseCap) (videoExists : Bool)
    (frames : List FrameData) : QCResult :=
  if ¬ videoExists then qcErrorResult "Video file not found"
  else if frames = [] then qcErrorResult "Could not extract frames from video"
  else
    let st := processFrames initQCState 0 frames
    qcAssemble frames.length st (checkPoseDiversity pose frames st.facesData)

/-! ## Batch quality sweep (`check_student_data_quality`) -/

/-- One student directory inside the `{dept}_{year}` folder, with the
injected outcomes of the per-student steps: file existence, the JSON load,
the quality check plus JSON write (any raised exception is `none`), and the
resulting category string. -/
structure StudentEntry where
  studentId : String
  hasVideo : Bool
  hasJson : Bool
  outcome : Option String
deriving DecidableEq

/-- A borderline entry carries the reg-no together with the issue list. -/
structure BorderlineEntry where
  regNo : String
  issues : List String
deriving DecidableEq

structure BatchReport where
  department : String
  year : String
  passedStudents : List String
  failedStudents : List String
  borderlineStudents : List BorderlineEntry
  totalChecked : Nat
  errorMsg : Option String
deriving DecidableEq

/-- The per-student loop of `check_student_data_quality`: students missing
either file are skipped, exceptions (`outcome = none`) are swallowed by the
`except` clause, and a computed category appends the student to exactly one
of the three lists and increments `total_processed` by one.  `issuesOf` is
the `quality_issues` list recorded for borderline students. -/
def sweepStudents (issuesOf : String → List String) :
    List StudentEntry →
    List String × List String × List BorderlineEntry × Nat
  | [] => ([], [], [], 0)
  | e :: rest =>
    let (ps, fs, bs, n) := sweepStudents issuesOf rest
    if ¬ e.hasVideo ∨ ¬ e.hasJson then (ps, fs, bs, n)
    else
      match e.outcome with
      | none => (ps, fs, bs, n)
      | some cat =>
        if cat = "pass" then (e.studentId :: ps, fs, bs, n + 1)
        else if cat = "borderline" then
          (ps, fs, ⟨e.studentId, issuesOf e.studentId⟩ :: bs, n + 1)
        else (ps, e.studentId :: fs, bs, n + 1)

/-- `check_student_data_quality`: early error returns produce an empty report
with `total_checked = 0`; otherwise the loop above fills the three lists. -/
def checkStudentDataQuality (dept year : String) (dirExists listOk : Bool)
    (issuesOf : String → List String) (students : List StudentEntry) :
    BatchReport :=
  if ¬ dirExists then
    { department := dept, year := year, passedStudents := [],
      failedStudents := [], borderlineStudents := [], totalChecked := 0,
      errorMsg := some "Directory not found" }
  else if ¬ listOk then
    { department := dept, year := year, passedStudents := [],
      failedStudents := [], borderlineStudents := [], totalChecked := 0,
      errorMsg := some "Error accessing directory" }
  else
    let (ps, fs, bs, n) := sweepStudents issuesOf students
    { department := dept, year := year, passedStudents := ps,
      failedStudents := fs, borderlineStudents := bs, totalChecked := n,
      errorMsg := none }

/-! ## Gallery artifacts (src/src/ml/gallery_operations.py) -/

/-- An embedding vector over the rationals. -/
abbrev Emb : Type := List ℚ

/-- A value stored under a key of the combined gallery dict.  Besides genuine
embedding vectors, the Python `dict.update` applied to a list of two-character
strings inserts single-character string values, which `strVal` records. -/
inductive GVal
  | emb (v : Emb)
  | strVal (s : String)
deriving DecidableEq

/-- Association list with Python-dict semantics: `insert` overwrites the
value of an existing key in place (keeping its position) and otherwise
appends at the end. -/
def dictInsert (m : List (String × GVal)) (k : String) (v : GVal) :
    List (String × GVal) :=
  if m.any (fun p => p.1 = k) then
    m.map (fun p => if p.1 = k then (k, v) else p)
  else m ++ [(k, v)]

/-- `d.update(other)` for a dict argument: insert every pair in order. -/
def dictUpdatePairs (m : List (String × GVal)) (entries : List (String × GVal)) :
    List (String × GVal) :=
  entries.foldl (fun acc p => dictInsert acc p.1 p.2) m

/-- `d.update(seq)` for a *list of strings* argument, as executed by
`combined_gallery.update(gallery_data["identities"])`: Python iterates the
list and destructures each element as a key/value pair, so a two-character
string `s` inserts `(s[0], s[1])` and any other length raises `ValueError`,
leaving the insertions made so far in the dict.  The boolean is false when
the error was raised. -/
def dictUpdateStrList (m : List (String × GVal)) :
    List String → List (String × GVal) × Bool
  | [] => (m, true)
  | s :: rest =>
    if s.length = 2 then
      dictUpdateStrList (dictInsert m (pySlice s 0 1) (.strVal (pySlice s 1 2))) rest
    else (m, false)

/-- A stored gallery file as `torch.load` yields it: the direct mapping
shape, the parallel-array record shape, or some non-dict object. -/
inductive GalleryData
  | direct (entries : List (String × GVal))
  | record (identities : List String) (embeddings : List GVal)
  | nonDict
deriving DecidableEq

/-- One requested gallery path: missing on disk, failing to deserialize, or
loaded data. -/
inductive GallerySlot
  | missing
  | loadFails
  | loaded (d : GalleryData)
deriving DecidableEq

/-- The gallery-combination loop of `recognize_faces` (lines 88–104): missing
paths and load errors are skipped; a loaded dict with an `"identities"` key
has `combined_gallery.update(gallery_data["identities"])` called on the
identity *list* — the raised `ValueError` is swallowed by the `except`
clause; a dict without that key is unioned as a mapping; a non-dict is
ignored. -/
def loadCombinedGallery (slots : List GallerySlot) : List (String × GVal) :=
  slots.foldl
    (fun acc slot =>
      match slot with
      | .missing => acc
      | .loadFails => acc
      | .loaded (.direct entries) => dictUpdatePairs acc entries
      | .loaded (.record ids _) => (dictUpdateStrList acc ids).1
      | .loaded .nonDict => acc)
    []

/-- The artifact value passed to `torch.save`. -/
inductive SavedArtifact
  | direct (entries : List (String × GVal))
  | record (identities : List String) (embeddings : List GVal)
deriving DecidableEq

/-- Componentwise arithmetic mean of a list of vectors (`np.mean(..., axis=0)`,
all vectors of the length of the first). -/
def vecMean (vs : List Emb) : Emb :=
  match vs with
  | [] => []
  | v :: _ =>
    (List.range v.length).map
      (fun i => (vs.map (fun w => w.getD i 0)).sum / vs.length)

/-- `create_gallery`: average the (possibly augmentation-extended) embedding
list of every identity subdirectory, skipping identities with no images or no
valid embeddings, and `torch.save` the resulting *direct* dict.  `embsOf`
abstracts the extractor/augmentation capability: the full embedding list
obtained for an identity. -/
def createGallery (identities : List String) (embsOf : String → List Emb) :
    List (String × GVal) × SavedArtifact :=
  let gallery :=
    identities.foldl
      (fun acc id =>
        match embsOf id with
        | [] => acc
        | vs => dictInsert acc id (.emb (vecMean vs)))
      []
  (gallery, .direct gallery)

/-- Gallery loading as `update_gallery` / `update_gallery_from_embeddings`
perform it: the record shape is unpacked through the parallel arrays, the
direct shape is taken as-is, a failed load yields the empty dict. -/
def loadExistingGallery (slot : GallerySlot) : List (String × GVal) :=
  match slot with
  | .missing => []
  | .loadFails => []
  | .loaded (.record ids embs) =>
    (ids.zip embs).foldl (fun acc p => dictInsert acc p.1 p.2) []
  | .loaded (.direct entries) => dictUpdatePairs [] entries
  | .loaded .nonDict => []

/-- `update_gallery`: load the existing artifact (both shapes accepted),
overwrite entries by identity key, and save the *record* shape built from the
parallel key/value lists of the updated dict. -/
def updateGallery (slot : GallerySlot) (identities : List String)
    (embsOf : String → List Emb) : List (String × GVal) × SavedArtifact :=
  let existing := loadExistingGallery slot
  let updated :=
    identities.foldl
      (fun acc id =>
        match embsOf id with
        | [] => acc
        | vs => dictInsert acc id (.emb (vecMean vs)))
      existing
  (updated, .record (updated.map Prod.fst) (updated.map Prod.snd))

/-- `create_gallery_from_embeddings`: `torch.save` the given dict directly. -/
def createGalleryFromEmbeddings (embeddingsDict : List (String × GVal)) :
    List (String × GVal) × SavedArtifact :=
  (embeddingsDict, .direct embeddingsDict)

/-- `update_gallery_from_embeddings`: load (both shapes accepted), merge by
key, and `torch.save` the merged *direct* dict. -/
def updateGalleryFromEmbeddings (slot : GallerySlot)
    (newEmbeddings : List (String × GVal)) :
    List (String × GVal) × SavedArtifact :=
  let updated := dictUpdatePairs (loadExistingGallery slot) newEmbeddings
  (updated, .direct updated)

/-! ## Recognition (src/src/services/gallery_service.py, `recognize_faces`) -/

/-- A query image, abstractly: its pixel dimensions and a tag distinguishing
distinct images. -/
structure Frame where
  width : Nat
  height : Nat
  tag : Nat
deriving DecidableEq

/-- What the function returns as its image: the input frame itself (the
empty-gallery early return) or a copy with boxes and labels drawn on it. -/
inductive OutImage
  | raw (f : Frame)
  | annotated (f : Frame) (labels : List (String × ℚ × (Int × Int × Int × Int)))
deriving DecidableEq

/-- One detection after box padding, carrying its threshold-filtered,
similarity-sorted candidate list. -/
structure Detection where
  bbox : Int × Int × Int × Int
  matchList : List (String × ℚ)
deriving DecidableEq

/-- One entry of the returned `detected_faces` list. -/
structure RecFace where
  identity : String
  similarity : ℚ
  boundingBox : Int × Int × Int × Int
deriving DecidableEq

/-- Sort key of the detection sort: best candidate similarity, `0` when the
candidate list is empty. -/
def bestKey (d : Detection) : ℚ :=
  match d.matchList with
  | [] => 0
  | m :: _ => m.2

/-- Stable descending insertion by key: the element keeps its place before
any later element with an equal key, matching the stable sort of Python. -/
def insertByKeyDesc {α : Type} (key : α → ℚ) (x : α) : List α → List α
  | [] => [x]
  | y :: ys =>
    if key x < key y then y :: insertByKeyDesc key x ys else x :: y :: ys

/-- Stable descending sort by key — the denotation of the Python call
`list.sort(key=..., reverse=True)`. -/
def sortByKeyDesc {α : Type} (key : α → ℚ) : List α → List α
  | [] => []
  | x :: xs => insertByKeyDesc key x (sortByKeyDesc key xs)

/-- `face_detections.sort(key=..., reverse=True)`. -/
def sortDetections (ds : List Detection) : List Detection :=
  sortByKeyDesc bestKey ds

/-- The inner for/break of the assignment step: the first candidate whose
identity is not yet assigned. -/
def findBestMatch (assigned : List String) :
    List (String × ℚ) → Option (String × ℚ)
  | [] => none
  | (id, s) :: rest =>
    if id ∈ assigned then findBestMatch assigned rest else some (id, s)

/-- The assignment loop.  `if best_match:` tests Python truthiness of the
matched identity string, so an empty-string identity falls through to the
"Unknown" branch and is not marked assigned. -/
def assignFaces (assigned : List String) : List Detection → List RecFace
  | [] => []
  | d :: rest =>
    match findBestMatch assigned d.matchList with
    | some (id, s) =>
      if id ≠ "" then
        { identity := id, similarity := s, boundingBox := d.bbox } ::
          assignFaces (id :: assigned) rest
      else
        { identity := "Unknown", similarity := 0, boundingBox := d.bbox } ::
          assignFaces assigned rest
    | none =>
      { identity := "Unknown", similarity := 0, boundingBox := d.bbox } ::
        assignFaces assigned rest

/-- Steps 2 of `recognize_faces`: sort the detections by best candidate
similarity, then assign greedily without duplicates. -/
def recognizeAssign (ds : List Detection) : List RecFace :=
  assignFaces [] (sortDetections ds)

/-- The candidate list for one face embedding: every gallery entry with
similarity at or above the threshold, sorted by similarity descending
(`matches.sort(key=..., reverse=True)`, stable). -/
def buildMatches (gallery : List (String × GVal)) (simOf : Emb → GVal → ℚ)
    (fEmb : Emb) (threshold : ℚ) : List (String × ℚ) :=
  sortByKeyDesc (fun m => m.2)
    ((gallery.map (fun p => (p.1, simOf fEmb p.2))).filter
      (fun m => threshold ≤ m.2))

/-- A raw detector box, before padding. -/
structure RawBox where
  x1 : Int
  y1 : Int
  x2 : Int
  y2 : Int
deriving DecidableEq

/-- Box padding by 20% of width/height (Python `int(w * 0.2)`, modelled as
`⌊w / 5⌋` — exact at these magnitudes), clamped to the image bounds. -/
def padBox (frame : Frame) (b : RawBox) : Int × Int × Int × Int :=
  let padX := (b.x2 - b.x1) / 5
  let padY := (b.y2 - b.y1) / 5
  (max 0 (b.x1 - padX), max 0 (b.y1 - padY),
   min (frame.width : Int) (b.x2 + padX), min (frame.height : Int) (b.y2 + padY))

/-- Steps 1–3 of `recognize_faces` for one raw box: pad, reject boxes whose
padded side is below 32 px, embed the crop, and build the match list.
`embedOf` is the detector-crop embedding capability. -/
def detectionOfBox (gallery : List (String × GVal)) (simOf : Emb → GVal → ℚ)
    (embedOf : Frame → Int × Int × Int × Int → Emb) (threshold : ℚ)
    (frame : Frame) (b : RawBox) : Option Detection :=
  let (x1, y1, x2, y2) := padBox frame b
  if x2 - x1 < 32 ∨ y2 - y1 < 32 then none
  else
    some { bbox := (x1, y1, x2, y2),
           matchList := buildMatches gallery simOf (embedOf frame (x1, y1, x2, y2)) threshold }

/-- `recognize_faces`: load and combine the galleries; if the combined
gallery is empty, return the input frame with an empty detection list before
any detector call; otherwise detect, embed, match, sort, assign, and return
the annotated copy together with the structured detection list. -/
def recognizeFaces (frame : Frame) (slots : List GallerySlot)
    (detect : Frame → List RawBox) (embedOf : Frame → Int × Int × Int × Int → Emb)
    (simOf : Emb → GVal → ℚ) (threshold : ℚ) : OutImage × List RecFace :=
  let combined := loadCombinedGallery slots
  if combined = [] then (.raw frame, [])
  else
    let detections :=
      (detect frame).filterMap (detectionOfBox combined simOf embedOf threshold frame)
    let faces := recognizeAssign detections
    (.annotated frame (faces.map (fun f => (f.identity, f.similarity, f.boundingBox))),
     faces)

/-! ## Specification-side definitions used for refinement statements -/

/-- The assignment rule of the spec, stated from its words: among the candidates
whose identity is still unassigned, take the first one whose similarity is at
least that of every other available candidate — the highest-scoring still-unassigned
identity (earliest on ties). -/
def specBest (assigned : List String) (ms : List (String × ℚ)) :
    Option (String × ℚ) :=
  let avail := ms.filter (fun m => decide (m.1 ∉ assigned))
  avail.find? (fun m => avail.all (fun m2 => decide (m2.2 ≤ m.2)))

/-- The greedy assignment of the spec over already-ordered detections: assign each
detection its highest-scoring still-unassigned identity, else label it
"Unknown" with similarity 0. -/
def specAssign (assigned : List String) : List Detection → List RecFace
  | [] => []
  | d :: rest =>
    match specBest assigned d.matchList with
    | some (id, s) =>
      { identity := id, similarity := s, boundingBox := d.bbox } ::
        specAssign (id :: assigned) rest
    | none =>
      { identity := "Unknown", similarity := 0, boundingBox := d.bbox } ::
        specAssign assigned rest

/-- Shape discriminator for saved artifacts. -/
def SavedArtifact.isRecord : SavedArtifact → Bool
  | .record _ _ => true
  | .direct _ => false

/-! ## Concrete instances used by counterexamples and witnesses -/

/-- Pre-upload session document of a re-attempting student
(`videoUploaded = true`, five extracted faces). -/
def preDocRe : SessionDoc :=
  { sessionId := "s1", regNo := "714023247046", name := "Alice", year := "2027",
    admissionYear := "2023", yearDisplay := "2023 - 2027", dept := "CSE", deptId := "247",
    batch := "Batch2027", startTime := "t0", videoUploaded := true, facesExtracted := true,
    facesOrganized := true, videoPath := "p", facesCount := 5, uploadTime := some "t1" }

/-- Pre-upload session document of a first-time student (as `start_session`
writes it). -/
def preDocFirst : SessionDoc :=
  { preDocRe with
    videoUploaded := false, facesExtracted := false,
    facesOrganized := false, videoPath := "", facesCount := 0, uploadTime := none }

def formRe : UploadForm :=
  { studentId := "714023247046", name := "Alice", yearDisplay := "2023 - 2027",
    deptName := "CSE" }

/-- An environment where every step succeeds except the final verification
read-back of the rewritten session JSON. -/
def envVerifyFail (pre : SessionDoc) : UploadEnv :=
  { store := some pre, now := "t2", webmSaveOk := true, webmSize := 100,
    ffmpegOk := true, run := fun _ => .ok, mp4Exists := true, mp4Size := 200,
    verifyReadOk := false }

/-- An environment failing at the empty-WebM check. -/
def envWebmEmpty (pre : SessionDoc) : UploadEnv :=
  { store := some pre, now := "t2", webmSaveOk := true, webmSize := 0,
    ffmpegOk := true, run := fun _ => .ok, mp4Exists := true, mp4Size := 200,
    verifyReadOk := true }

def webmPathRe : String :=
  studentDirPath "247" "2027" "714023247046" ++ "/" ++ "714023247046" ++ ".webm"

def mp4PathRe : String :=
  studentDirPath "247" "2027" "714023247046" ++ "/" ++ "714023247046" ++ ".mp4"

/-- A transcoder where the very first variant (`mpeg4`/`mp3`) hits the 120 s
timeout while every other variant would succeed. -/
def runTimeoutFirst : FfmpegCmd → TOut := fun c =>
  if c = mkAudioCmd webmPathRe mp4PathRe "mpeg4" "mp3" then .timedOut else .ok

def envTimedOut (pre : SessionDoc) : UploadEnv :=
  { store := some pre, now := "t2", webmSaveOk := true, webmSize := 100,
    ffmpegOk := true, run := runTimeoutFirst, mp4Exists := true, mp4Size := 200,
    verifyReadOk := true }

/-- A frame with one large face and good metrics: no issue at all besides
whatever the pose step contributes. -/
def cleanFrame : FrameData :=
  { faces := [⟨0, 0, 100, 100⟩], blur := 100, contrast := 50, motionBlur := 10 }

/-- A frame on which the detector reports two faces. -/
def twoFaceFrame : FrameData :=
  { faces := [⟨0, 0, 100, 100⟩, ⟨200, 0, 300, 100⟩], blur := 100, contrast := 50,
    motionBlur := 10 }

/-- A pose estimator that never recognizes a pose. -/
def poseUnknownCap : PoseCap := fun _ _ => ("unknown", 0, 0, 0)

/-- Spec §8 scenario 5: two detections, both matching identity A (0.71 and
0.63, scaled by 100) and identity B (0.58 and 0.61). -/
def dsScenario : List Detection :=
  [⟨(0, 0, 50, 50), [("A", 71), ("B", 58)]⟩,
   ⟨(60, 0, 110, 50), [("A", 63), ("B", 61)]⟩]

def studentsScenario : List StudentEntry :=
  [⟨"s1", true, true, some "pass"⟩, ⟨"s2", true, true, some "borderline"⟩,
   ⟨"s3", true, true, some "fail"⟩, ⟨"s4", false, true, some "pass"⟩,
   ⟨"s5", true, true, none⟩]

/-- A student the sweep classifies under category `cat`: both files present
and the per-student processing produced exactly that category. -/
def sweptAs (cat : String) (e : StudentEntry) : Bool :=
  e.hasVideo && e.hasJson && (e.outcome == some cat)

/-- A student the sweep classifies as failed: any produced category other
than "pass" and "borderline". -/
def sweptFailed (e : StudentEntry) : Bool :=
  e.hasVideo && e.hasJson &&
    (match e.outcome with
     | some c => !(c == "pass") && !(c == "borderline")
     | none => false)

/-- A student the sweep processes to completion: both files present and no
exception raised. -/
def sweptProcessed (e : StudentEntry) : Bool :=
  e.hasVideo && e.hasJson && e.outcome.isSome

/-! ## Theorems -/

/-- C3, counterexample: a registration number whose year substring (positions
4..5) is non-numeric is not rejected — `extract_year_from_regno` silently
falls back to ("2023", "2027") and `start_session` succeeds with the
substituted graduation year; likewise a non-numeric department-code substring
is extracted without any validation.  This refutes the claim that such inputs
are a hard error at every parsing entry point. -/
theorem regnoFallbackNotHardError :
    extractYearFromRegno "7140AB247046" = ("2023", "2027") ∧
    (startSession "7140AB247046" "Alice" "2023 - 2027" "CSE" "sid" "t0").isOk = true ∧
    ((startSession "7140AB247046" "Alice" "2023 - 2027" "CSE" "sid" "t0").toOption.map
      SessionDoc.year) = some "2027" ∧
    extractDeptCodeFromRegno "714023ABC046" = some "ABC" := by
  refine ⟨by decide, by decide, by decide, by decide⟩

/-- C3 (amended): at the entry points that parse the registration number, a
length below 9 (no department code) is a hard error; but a non-numeric year
substring at positions 4..5 silently falls back to admission 2023 /
graduation 2027, and the department-code substring at positions 6..8 is
extracted without numeric validation. -/
theorem regnoParsingAmended (regno name yd dept sid t0 : String) (env : UploadEnv)
    (form : UploadForm) (hsid : regno ≠ "") (hdept : dept ≠ "")
    (hform : form.studentId = regno) :
    (regno.length < 9 →
      startSession regno name yd dept sid t0 = .error .invalidRegno ∧
      (uploadVideo env form).1 = .errBadRegno) ∧
    (9 ≤ regno.length → pyIntOfStr (pySlice regno 4 6) = none →
      ∃ doc, startSession regno name yd dept sid t0 = .ok doc ∧
        doc.year = "2027" ∧ doc.admissionYear = "2023") ∧
    (9 ≤ regno.length → extractDeptCodeFromRegno regno = some (pySlice regno 6 9)) := by
  refine ⟨fun hlen => ?_, fun hlen hparse => ?_, fun hlen => ?_⟩
  · have hdc : extractDeptCodeFromRegno regno = none := by
      simp [extractDeptCodeFromRegno, Nat.not_le.2 hlen]
    constructor
    · simp [startSession, hsid, hdept, hdc]
    · simp [uploadVideo, hform, hsid, hdc]
  · have hdc : extractDeptCodeFromRegno regno = some (pySlice regno 6 9) := by
      simp [extractDeptCodeFromRegno, hlen]
    have hyear : extractYearFromRegno regno = ("2023", "2027") := by
      have h6 : 6 ≤ regno.length := le_trans (by norm_num) hlen
      simp [extractYearFromRegno, h6, hparse]
    have hstart : startSession regno name yd dept sid t0 =
        .ok { sessionId := sid, regNo := regno, name := name,
              year := getGraduationYear regno,
              admissionYear := (extractYearFromRegno regno).1,
              yearDisplay := yd, dept := dept, deptId := pySlice regno 6 9,
              batch := "Batch" ++ getGraduationYear regno, startTime := t0,
              videoUploaded := false, facesExtracted := false,
              facesOrganized := false, videoPath := "", facesCount := 0,
              uploadTime := none } := by
      simp [startSession, hsid, hdept, hdc]
    exact ⟨_, hstart, by simp [getGraduationYear, hyear], by simp [hyear]⟩
  · simp [extractDeptCodeFromRegno, hlen]

/-- C3, witness for the amended theorem at concrete inputs: an 8-character
registration number is rejected by `start_session`, while a 12-character one
with year substring "AB" is accepted with the fallback years. -/
theorem regnoParsingAmendedWitness :
    (startSession "71402324" "Alice" "y" "CSE" "sid" "t0" = .error .invalidRegno ∧
      (uploadVideo (envVerifyFail preDocRe) ⟨"71402324", "Alice", "y", "CSE"⟩).1 =
        .errBadRegno) ∧
    (∃ doc, startSession "7140AB247046" "Alice" "y" "CSE" "sid" "t0" = .ok doc ∧
      doc.year = "2027" ∧ doc.admissionYear = "2023") := by
  refine ⟨?_, ?_⟩
  · exact (regnoParsingAmended "71402324" "Alice" "y" "CSE" "sid" "t0"
      (envVerifyFail preDocRe) ⟨"71402324", "Alice", "y", "CSE"⟩
      (by decide) (by decide) rfl).1 (by decide)
  · exact (regnoParsingAmended "7140AB247046" "Alice" "y" "CSE" "sid" "t0"
      (envVerifyFail preDocRe) ⟨"7140AB247046", "Alice", "y", "CSE"⟩
      (by decide) (by decide) rfl).2.1 (by decide) (by decide)

/-- C10: when the combined gallery map comes out empty — every requested path
missing, failing to load, or contributing nothing — `recognize_faces` returns
the input frame itself (no annotation) and an empty detection list, for every
detector/embedder/similarity capability, i.e. before any detection runs. -/
theorem emptyGalleryEarlyReturn (frame : Frame) (slots : List GallerySlot)
    (detect : Frame → List RawBox) (embedOf : Frame → Int × Int × Int × Int → Emb)
    (simOf : Emb → GVal → ℚ) (threshold : ℚ)
    (h : loadCombinedGallery slots = []) :
    recognizeFaces frame slots detect embedOf simOf threshold = (.raw frame, []) := by
  simp [recognizeFaces, h]

/-- C10, witness: a missing and an unreadable gallery give the empty combined
map, and recognition returns the raw input frame with no detections even
though the detector would report a face. -/
theorem emptyGalleryEarlyReturnWitness :
    recognizeFaces ⟨640, 480, 0⟩ [.missing, .loadFails]
      (fun _ => [⟨0, 0, 100, 100⟩]) (fun _ _ => [1]) (fun _ _ => 1) (45/100) =
      (.raw ⟨640, 480, 0⟩, []) :=
  emptyGalleryEarlyReturn _ _ _ _ _ _ (by decide)

/-- C5: the parallel-array record shape — exactly what `update_gallery`
writes — cannot be read back by `recognize_faces`: the loader calls
`combined_gallery.update` on the identity *list*, which raises `ValueError`
for the 12-character identities, the exception is swallowed, and the gallery
contributes nothing, so recognition over only such galleries returns no
detections.  By contrast the loader inside `update_gallery` unpacks the record
shape correctly, which shows both shapes were meant to be readable. -/
theorem recordShapeGalleryUnreadable :
    loadCombinedGallery [.loaded (.record ["714023247046"] [.emb [1, 0]])] = [] ∧
    loadExistingGallery (.loaded (.record ["714023247046"] [.emb [1, 0]])) =
      [("714023247046", GVal.emb [1, 0])] ∧
    ∀ (frame : Frame) (detect : Frame → List RawBox)
      (embedOf : Frame → Int × Int × Int × Int → Emb) (simOf : Emb → GVal → ℚ) (th : ℚ),
      recognizeFaces frame [.loaded (.record ["714023247046"] [.emb [1, 0]])]
        detect embedOf simOf th = (.raw frame, []) := by
  refine ⟨by decide, by decide, fun frame detect embedOf simOf th => ?_⟩
  simp [recognizeFaces,
    show loadCombinedGallery [.loaded (.record ["714023247046"] [.emb [1, 0]])] = []
      from by decide]

/-- C8, counterexample: `create_gallery`, `create_gallery_from_embeddings`
and `update_gallery_from_embeddings` all pass the direct
identity-to-centroid dict to `torch.save`, not the parallel-array record,
refuting the claim that every gallery write emits the record shape. -/
theorem createGalleryWritesDirectShape :
    (createGallery ["714023247046"] (fun _ => [[1, 0]])).2.isRecord = false ∧
    (createGalleryFromEmbeddings [("714023247046", GVal.emb [1, 0])]).2.isRecord = false ∧
    (updateGalleryFromEmbeddings .missing [("714023247046", GVal.emb [1, 0])]).2.isRecord =
      false := by
  exact ⟨rfl, rfl, rfl⟩

/-- C8 (amended): only `update_gallery` writes the parallel-array record
shape (built from the key and value lists of the updated dict, so the arrays are
parallel); `create_gallery`, `create_gallery_from_embeddings` and
`update_gallery_from_embeddings` write the direct mapping shape. -/
theorem galleryWriteShapesAmended (slot : GallerySlot) (ids : List String)
    (embsOf : String → List Emb) (dict newDict : List (String × GVal)) :
    (updateGallery slot ids embsOf).2 =
      .record ((updateGallery slot ids embsOf).1.map Prod.fst)
        ((updateGallery slot ids embsOf).1.map Prod.snd) ∧
    (createGallery ids embsOf).2 = .direct (createGallery ids embsOf).1 ∧
    (createGalleryFromEmbeddings dict).2 = .direct dict ∧
    (updateGalleryFromEmbeddings slot newDict).2 =
      .direct (updateGalleryFromEmbeddings slot newDict).1 := by
  exact ⟨rfl, rfl, rfl, rfl⟩

/-- C6: a video whose only defect is a missing required pose is categorized
`pass`, not `borderline`: the pose-diversity step runs only after `category`
has been computed, and its missing-pose entry is appended to `minor_issues`
without ever influencing the category (moreover `check_pose_diversity`
compares the pose 4-tuple against the string "unknown", so no pose label is
ever recognized).  Three clean one-face frames with every metric above
threshold evaluate to category `pass` with the missing-pose entry as the
only minor issue. -/
theorem missingPoseDoesNotAffectCategory :
    (checkSingleVideoQuality poseUnknownCap true [cleanFrame, cleanFrame, cleanFrame]).category =
      "pass" ∧
    (checkSingleVideoQuality poseUnknownCap true [cleanFrame, cleanFrame, cleanFrame]).category ≠
      "borderline" ∧
    (checkSingleVideoQuality poseUnknownCap true [cleanFrame, cleanFrame, cleanFrame]).criticalIssues =
      [] ∧
    (checkSingleVideoQuality poseUnknownCap true [cleanFrame, cleanFrame, cleanFrame]).majorIssues =
      [] ∧
    (checkSingleVideoQuality poseUnknownCap true [cleanFrame, cleanFrame, cleanFrame]).minorIssues =
      ["Missing face angles: front, side"] ∧
    (checkSingleVideoQuality poseUnknownCap true [cleanFrame, cleanFrame, cleanFrame]).overallQuality =
      "pass" := by
  refine ⟨?_, ?_, ?_, ?_, ?_, ?_⟩ <;>
    · simp [checkSingleVideoQuality, qcAssemble, processFrames, initQCState, cleanFrame,
        frameFlags, listAvg, checkPoseDiversity, poseUnknownCap, requiredPoses,
        poseTupleEqStr, joinCommaSep, minBlurScore, minContrast, minFaceSize,
        maxMotionBlur, faceSize, qcErrorResult]
      try norm_num

/-- Post-state trichotomy of the upload handler: either the handler stopped
before the session-document write — the stored document is exactly the
pre-upload one — or it reached the write (success or failed verification),
in which case the stored document is the updated one with
`videoUploaded = true`. -/
theorem uploadVideo_post (env : UploadEnv) (form : UploadForm) (pre : SessionDoc)
    (h : env.store = some pre) :
    ((uploadVideo env form).1 ≠ .okUp ∧ (uploadVideo env form).1 ≠ .failVerify ∧
      (uploadVideo env form).2 = some pre) ∨
    (((uploadVideo env form).1 = .okUp ∨ (uploadVideo env form).1 = .failVerify) ∧
      ∃ doc, (uploadVideo env form).2 = some doc ∧ doc.videoUploaded = true) := by
  by_cases h1 : form.studentId = ""
  · have e : uploadVideo env form = (.errStudentIdMissing, env.store) := by
      simp [uploadVideo, h1]
    rw [e, h]
    exact .inl ⟨by simp, by simp, rfl⟩
  rcases hdc : extractDeptCodeFromRegno form.studentId with _ | dc
  · have e : uploadVideo env form = (.errBadRegno, env.store) := by
      simp [uploadVideo, h1, hdc]
    rw [e, h]
    exact .inl ⟨by simp, by simp, rfl⟩
  by_cases h2 : env.webmSaveOk
  case neg =>
    have e : uploadVideo env form = (.failWebmSave, some pre) := by
      simp [uploadVideo, h1, hdc, h, h2]
    rw [e]
    exact .inl ⟨by simp, by simp, rfl⟩
  by_cases h3 : env.webmSize = 0
  · have e : uploadVideo env form = (.failWebmEmpty, some pre) := by
      simp [uploadVideo, h1, hdc, h, h2, h3]
    rw [e]
    exact .inl ⟨by simp, by simp, rfl⟩
  by_cases h4 : env.ffmpegOk
  case neg =>
    have e : uploadVideo env form = (.failFfmpegMissing, some pre) := by
      simp [uploadVideo, h1, hdc, h, h2, h3, h4]
    rw [e]
    exact .inl ⟨by simp, by simp, rfl⟩
  cases hconv : tryVideoCodecs env.run
      (studentDirPath dc (getGraduationYear form.studentId) form.studentId ++ "/" ++
        form.studentId ++ ".webm")
      (studentDirPath dc (getGraduationYear form.studentId) form.studentId ++ "/" ++
        form.studentId ++ ".mp4") videoEncoders with
  | timedOut v a =>
    have e : uploadVideo env form = (.failTimedOut, some pre) := by
      simp [uploadVideo, h1, hdc, h, h2, h3, h4, hconv]
    rw [e]
    exact .inl ⟨by simp, by simp, rfl⟩
  | exhausted =>
    have e : uploadVideo env form = (.failAllCodecs, some pre) := by
      simp [uploadVideo, h1, hdc, h, h2, h3, h4, hconv]
    rw [e]
    exact .inl ⟨by simp, by simp, rfl⟩
  | success v a =>
    by_cases h5 : env.mp4Exists
    case neg =>
      have e : uploadVideo env form = (.failMp4Missing, some pre) := by
        simp [uploadVideo, h1, hdc, h, h2, h3, h4, hconv, h5]
      rw [e]
      exact .inl ⟨by simp, by simp, rfl⟩
    by_cases h6 : env.mp4Size = 0
    · have e : uploadVideo env form = (.failMp4Empty, some pre) := by
        simp [uploadVideo, h1, hdc, h, h2, h3, h4, hconv, h5, h6]
      rw [e]
      exact .inl ⟨by simp, by simp, rfl⟩
    by_cases h7 : env.verifyReadOk
    · have e : uploadVideo env form =
          (.okUp, some (updatedDoc pre form dc (getGraduationYear form.studentId) env.now
            (studentDirPath dc (getGraduationYear form.studentId) form.studentId ++ "/" ++
              form.studentId ++ ".mp4"))) := by
        simp [uploadVideo, h1, hdc, h, h2, h3, h4, hconv, h5, h6, h7]
      rw [e]
      exact .inr ⟨.inl rfl, _, rfl, rfl⟩
    · have e : uploadVideo env form =
          (.failVerify, some (updatedDoc pre form dc (getGraduationYear form.studentId) env.now
            (studentDirPath dc (getGraduationYear form.studentId) form.studentId ++ "/" ++
              form.studentId ++ ".mp4"))) := by
        simp [uploadVideo, h1, hdc, h, h2, h3, h4, hconv, h5, h6, h7]
      rw [e]
      exact .inr ⟨.inr rfl, _, rfl, rfl⟩

/-- C1, counterexample: when every stage succeeds except the verification
read-back of the freshly written session JSON, the handler returns a failure
response but performs no restore: for a re-attempting student the document
on disk is no longer the pre-upload one, and for a first-time student it is
left with `videoUploaded = true` instead of `false`. -/
theorem uploadVerifyFailureBreaksRestore :
    ((uploadVideo (envVerifyFail preDocRe) formRe).1 ≠ .okUp ∧
      preDocRe.videoUploaded = true ∧
      (uploadVideo (envVerifyFail preDocRe) formRe).2 ≠ some preDocRe) ∧
    ((uploadVideo (envVerifyFail preDocFirst) formRe).1 ≠ .okUp ∧
      preDocFirst.videoUploaded = false ∧
      ((uploadVideo (envVerifyFail preDocFirst) formRe).2.map SessionDoc.videoUploaded) =
        some true) := by
  exact ⟨⟨by decide, by decide, by decide⟩, ⟨by decide, by decide, by decide⟩⟩

/-- C1 (amended): a failed upload leaves the pre-upload session document
value on disk — restored for re-attempting students, untouched (hence
`videoUploaded = false`) for first-time students — at every failure stage
except a failure of the post-write verification read-back, which leaves the
newly written document with `videoUploaded = true` for both kinds of
student. -/
theorem uploadFailureDocAmended (env : UploadEnv) (form : UploadForm) (pre : SessionDoc)
    (hstore : env.store = some pre)
    (hfail : (uploadVideo env form).1 ≠ .okUp) :
    ((uploadVideo env form).1 ≠ .failVerify ∧ (uploadVideo env form).2 = some pre ∧
      (pre.videoUploaded = false →
        ((uploadVideo env form).2.map SessionDoc.videoUploaded) = some false)) ∨
    ((uploadVideo env form).1 = .failVerify ∧
      ∃ doc, (uploadVideo env form).2 = some doc ∧ doc.videoUploaded = true) := by
  rcases uploadVideo_post env form pre hstore with ⟨_, hnv, hdoc⟩ | ⟨hst, hdocs⟩
  · exact .inl ⟨hnv, hdoc, fun hv => by simp [hdoc, hv]⟩
  · rcases hst with hok | hv
    · exact absurd hok hfail
    · exact .inr ⟨hv, hdocs⟩

/-- C1, witness for the amended theorem: a concrete upload failing at the
empty-WebM check restores the document of the re-attempting student exactly. -/
theorem uploadFailureDocAmendedWitness :
    ((uploadVideo (envWebmEmpty preDocRe) formRe).1 ≠ .failVerify ∧
      (uploadVideo (envWebmEmpty preDocRe) formRe).2 = some preDocRe ∧
      (preDocRe.videoUploaded = false →
        ((uploadVideo (envWebmEmpty preDocRe) formRe).2.map SessionDoc.videoUploaded) =
          some false)) ∨
    ((uploadVideo (envWebmEmpty preDocRe) formRe).1 = .failVerify ∧
      ∃ doc, (uploadVideo (envWebmEmpty preDocRe) formRe).2 = some doc ∧
        doc.videoUploaded = true) :=
  uploadFailureDocAmended (envWebmEmpty preDocRe) formRe preDocRe rfl (by decide)

/-- C4, counterexample: the very first variant (`mpeg4`/`mp3`) raises the
120 s timeout while the next variant (`mpeg4`/`libmp3lame`) would succeed,
yet the whole upload fails with the timeout response: the raised
`TimeoutExpired` propagates out of the codec loops to the outer
exception clause instead of being treated as a failure of that one variant. -/
theorem transcodeTimeoutAbortsUpload :
    runTimeoutFirst (mkAudioCmd webmPathRe mp4PathRe "mpeg4" "libmp3lame") = .ok ∧
    (uploadVideo (envTimedOut preDocRe) formRe).1 = .failTimedOut ∧
    (uploadVideo (envTimedOut preDocRe) formRe).1 ≠ .okUp := by
  exact ⟨by decide, by decide, by decide⟩

/-- C4 (amended): every transcode attempt is issued with a 120-second
timeout; a variant that fails with a nonzero exit lets the search continue
with the remaining variants, but a variant that exceeds the timeout aborts
the entire conversion, failing the whole upload with the pre-upload session
document left in place. -/
theorem transcodeTimeoutAmended (inp outp v a : String) (rest : List String)
    (run : FfmpegCmd → TOut) (env : UploadEnv) (form : UploadForm) (pre : SessionDoc)
    (hstore : env.store = some pre) :
    (mkAudioCmd inp outp v a).timeoutSec = 120 ∧
    (mkNoAudioCmd inp outp v).timeoutSec = 120 ∧
    (run (mkAudioCmd inp outp v a) = .err →
      tryAudioCodecs run inp outp v (a :: rest) = tryAudioCodecs run inp outp v rest) ∧
    (run (mkAudioCmd inp outp v a) = .timedOut →
      tryAudioCodecs run inp outp v (a :: rest) = .timedOut v (some a)) ∧
    ((uploadVideo env form).1 = .failTimedOut → (uploadVideo env form).2 = some pre) := by
  refine ⟨rfl, rfl, fun he => by simp [tryAudioCodecs, he],
    fun ht => by simp [tryAudioCodecs, ht], fun htime => ?_⟩
  rcases uploadVideo_post env form pre hstore with ⟨_, _, hdoc⟩ | ⟨hst, _⟩
  · exact hdoc
  · rcases hst with hok | hv
    · rw [hok] at htime; exact absurd htime (by decide)
    · rw [hv] at htime; exact absurd htime (by decide)

/-- C4, witness for the amended theorem: with the concrete transcoder whose
first variant times out, the audio-codec search aborts at that variant and
the failed upload leaves the pre-upload document. -/
theorem transcodeTimeoutAmendedWitness :
    tryAudioCodecs runTimeoutFirst webmPathRe mp4PathRe "mpeg4"
      ("mp3" :: ["libmp3lame", "pcm_s16le", "aac"]) = .timedOut "mpeg4" (some "mp3") ∧
    (uploadVideo (envTimedOut preDocRe) formRe).2 = some preDocRe := by
  constructor
  · exact (transcodeTimeoutAmended webmPathRe mp4PathRe "mpeg4" "mp3"
      ["libmp3lame", "pcm_s16le", "aac"] runTimeoutFirst (envTimedOut preDocRe) formRe
      preDocRe rfl).2.2.2.1 (by decide)
  · exact (transcodeTimeoutAmended webmPathRe mp4PathRe "mpeg4" "mp3"
      ["libmp3lame", "pcm_s16le", "aac"] runTimeoutFirst (envTimedOut preDocRe) formRe
      preDocRe rfl).2.2.2.2 (by decide)

theorem mem_insertByKeyDesc {α : Type} (key : α → ℚ) (x a : α) :
    ∀ l : List α, a ∈ insertByKeyDesc key x l ↔ a = x ∨ a ∈ l := by
  intro l
  induction l with
  | nil => simp [insertByKeyDesc]
  | cons y ys ih =>
    by_cases h : key x < key y
    · simp only [insertByKeyDesc, if_pos h, List.mem_cons, ih]
      tauto
    · simp only [insertByKeyDesc, if_neg h, List.mem_cons]

theorem pairwise_insertByKeyDesc {α : Type} (key : α → ℚ) (x : α) :
    ∀ l : List α, l.Pairwise (fun p q => key q ≤ key p) →
      (insertByKeyDesc key x l).Pairwise (fun p q => key q ≤ key p) := by
  intro l
  induction l with
  | nil => intro _; simp [insertByKeyDesc]
  | cons y ys ih =>
    intro hp
    rcases List.pairwise_cons.1 hp with ⟨hy, hys⟩
    by_cases h : key x < key y
    · simp only [insertByKeyDesc, if_pos h]
      refine List.pairwise_cons.2 ⟨?_, ih hys⟩
      intro z hz
      rcases (mem_insertByKeyDesc key x z ys).1 hz with rfl | hz'
      · exact le_of_lt h
      · exact hy z hz'
    · simp only [insertByKeyDesc, if_neg h]
      refine List.pairwise_cons.2 ⟨?_, hp⟩
      intro z hz
      rcases List.mem_cons.1 hz with rfl | hz'
      · exact le_of_not_lt h
      · exact le_trans (hy z hz') (le_of_not_lt h)

theorem mem_sortByKeyDesc {α : Type} (key : α → ℚ) (a : α) :
    ∀ l : List α, a ∈ sortByKeyDesc key l ↔ a ∈ l := by
  intro l
  induction l with
  | nil => simp [sortByKeyDesc]
  | cons x xs ih =>
    simp only [sortByKeyDesc, mem_insertByKeyDesc, ih, List.mem_cons]

theorem pairwise_sortByKeyDesc {α : Type} (key : α → ℚ) :
    ∀ l : List α, (sortByKeyDesc key l).Pairwise (fun p q => key q ≤ key p) := by
  intro l
  induction l with
  | nil => simp [sortByKeyDesc]
  | cons x xs ih => exact pairwise_insertByKeyDesc key x _ ih

theorem findBestMatch_some (assigned : List String) :
    ∀ (ms : List (String × ℚ)) (m : String × ℚ),
      findBestMatch assigned ms = some m → m ∈ ms ∧ m.1 ∉ assigned := by
  intro ms
  induction ms with
  | nil => intro m h; cases h
  | cons x rest ih =>
    intro m h
    obtain ⟨id, s⟩ := x
    by_cases hx : id ∈ assigned
    · simp only [findBestMatch, if_pos hx] at h
      exact ⟨List.mem_cons_of_mem _ (ih m h).1, (ih m h).2⟩
    · simp only [findBestMatch, if_neg hx, Option.some.injEq] at h
      subst h
      exact ⟨List.mem_cons_self _ _, hx⟩

/-- On a similarity-sorted candidate list, the first still-unassigned
candidate (the for/break of the source) is exactly the highest-scoring
still-unassigned candidate (earliest on ties). -/
theorem specBest_eq_findBestMatch (assigned : List String) :
    ∀ ms : List (String × ℚ), ms.Pairwise (fun p q => q.2 ≤ p.2) →
      specBest assigned ms = findBestMatch assigned ms := by
  intro ms
  induction ms with
  | nil => intro _; rfl
  | cons m rest ih =>
    intro hp
    rcases List.pairwise_cons.1 hp with ⟨hm, hrest⟩
    obtain ⟨id, s⟩ := m
    by_cases hx : id ∈ assigned
    · have h1 : specBest assigned ((id, s) :: rest) = specBest assigned rest := by
        simp [specBest, hx]
      rw [h1, ih hrest]
      simp [findBestMatch, hx]
    · have hall : ∀ m2 ∈ rest.filter (fun m => decide (m.1 ∉ assigned)), m2.2 ≤ s :=
        fun m2 hm2 => hm m2 (List.mem_of_mem_filter hm2)
      have h1 : ((id, s) :: rest).filter (fun m => decide (m.1 ∉ assigned)) =
          (id, s) :: rest.filter (fun m => decide (m.1 ∉ assigned)) :=
        List.filter_cons_of_pos (by simpa using hx)
      have hP : (fun (m : String × ℚ) =>
          (((id, s) :: rest.filter (fun m => decide (m.1 ∉ assigned))).all
            (fun m2 => decide (m2.2 ≤ m.2)))) (id, s) = true := by
        rw [List.all_eq_true]
        intro x hxmem
        rcases List.mem_cons.1 hxmem with rfl | hxm
        · simp
        · simpa using hall x hxm
      have hfind : List.find?
          (fun m => (((id, s) :: rest.filter (fun m => decide (m.1 ∉ assigned))).all
            (fun m2 => decide (m2.2 ≤ m.2))))
          ((id, s) :: rest.filter (fun m => decide (m.1 ∉ assigned))) = some (id, s) :=
        List.find?_cons_of_pos _ hP
      simp only [specBest, h1, hfind]
      simp [findBestMatch, hx]

/-- The assignment loop of the source refines the greedy rule of the spec whenever the
candidate lists are similarity-sorted and no identity is the empty string
(identities are registration numbers, so they are non-empty; an empty string
would be falsy under `if best_match:`). -/
theorem assignFaces_eq_specAssign :
    ∀ (ds : List Detection) (assigned : List String),
      (∀ d ∈ ds, d.matchList.Pairwise (fun p q => q.2 ≤ p.2)) →
      (∀ d ∈ ds, ∀ m ∈ d.matchList, m.1 ≠ "") →
      assignFaces assigned ds = specAssign assigned ds := by
  intro ds
  induction ds with
  | nil => intro assigned _ _; rfl
  | cons d rest ih =>
    intro assigned hs hid
    have heq : specBest assigned d.matchList = findBestMatch assigned d.matchList :=
      specBest_eq_findBestMatch assigned d.matchList (hs d (List.mem_cons_self _ _))
    have htl₁ : ∀ e ∈ rest, e.matchList.Pairwise (fun p q => q.2 ≤ p.2) :=
      fun e he => hs e (List.mem_cons_of_mem _ he)
    have htl₂ : ∀ e ∈ rest, ∀ m ∈ e.matchList, m.1 ≠ "" :=
      fun e he => hid e (List.mem_cons_of_mem _ he)
    cases hfb : findBestMatch assigned d.matchList with
    | none =>
      simp only [assignFaces, specAssign, heq, hfb]
      exact congrArg _ (ih assigned htl₁ htl₂)
    | some m =>
      obtain ⟨id, s⟩ := m
      have hne : id ≠ "" :=
        hid d (List.mem_cons_self _ _) (id, s) (findBestMatch_some assigned _ _ hfb).1
      simp only [assignFaces, specAssign, heq, hfb, if_pos hne, ne_eq]
      exact congrArg _ (ih (id :: assigned) htl₁ htl₂)

/-- No-duplicate invariant of the assignment loop: the non-"Unknown"
identities of the output are pairwise distinct and none of them was already
assigned on entry. -/
theorem assignFaces_nodup :
    ∀ (ds : List Detection) (assigned : List String),
      (((assignFaces assigned ds).filter (fun f => f.identity ≠ "Unknown")).map
        RecFace.identity).Nodup ∧
      ∀ id ∈ ((assignFaces assigned ds).filter (fun f => f.identity ≠ "Unknown")).map
        RecFace.identity, id ∉ assigned := by
  intro ds
  induction ds with
  | nil => intro assigned; simp [assignFaces]
  | cons d rest ih =>
    intro assigned
    cases hfb : findBestMatch assigned d.matchList with
    | none =>
      have e : assignFaces assigned (d :: rest) =
          ⟨"Unknown", 0, d.bbox⟩ :: assignFaces assigned rest := by
        simp [assignFaces, hfb]
      rw [e, List.filter_cons_of_neg (by simp)]
      exact ih assigned
    | some m =>
      obtain ⟨id, s⟩ := m
      have hna : id ∉ assigned := (findBestMatch_some assigned _ _ hfb).2
      by_cases hid0 : id = ""
      · have e : assignFaces assigned (d :: rest) =
            ⟨"Unknown", 0, d.bbox⟩ :: assignFaces assigned rest := by
          simp [assignFaces, hfb, hid0]
        rw [e, List.filter_cons_of_neg (by simp)]
        exact ih assigned
      · have e : assignFaces assigned (d :: rest) =
            ⟨id, s, d.bbox⟩ :: assignFaces (id :: assigned) rest := by
          simp [assignFaces, hfb, hid0]
        rcases ih (id :: assigned) with ⟨hnd, hnotin⟩
        by_cases hu : id = "Unknown"
        · rw [e, List.filter_cons_of_neg (by simp [hu])]
          exact ⟨hnd, fun x hx hxa => hnotin x hx (List.mem_cons_of_mem _ hxa)⟩
        · rw [e, List.filter_cons_of_pos (by simp [hu]), List.map_cons]
          refine ⟨List.nodup_cons.2
            ⟨fun hmem => hnotin id hmem (List.mem_cons_self _ _), hnd⟩, ?_⟩
          intro x hx
          rcases List.mem_cons.1 hx with rfl | hx'
          · exact hna
          · exact fun hxa => hnotin x hx' (List.mem_cons_of_mem _ hxa)

/-- C2: over any detection set whose candidate lists are similarity-sorted
with registration-number identities (non-empty strings), the source
assignment equals the spec rule — detections processed in descending order
of best candidate similarity, each assigned its highest-scoring
still-unassigned identity, "Unknown" with similarity 0 otherwise — and the
non-"Unknown" identities of the returned list contain no duplicate. -/
theorem recognitionAssignmentSpec (ds : List Detection)
    (hsorted : ∀ d ∈ ds, d.matchList.Pairwise (fun p q => q.2 ≤ p.2))
    (hid : ∀ d ∈ ds, ∀ m ∈ d.matchList, m.1 ≠ "") :
    recognizeAssign ds = specAssign [] (sortDetections ds) ∧
    (sortDetections ds).Pairwise (fun d e => bestKey e ≤ bestKey d) ∧
    (((recognizeAssign ds).filter (fun f => f.identity ≠ "Unknown")).map
      RecFace.identity).Nodup := by
  have hmem : ∀ d ∈ sortDetections ds, d ∈ ds :=
    fun d hd => (mem_sortByKeyDesc bestKey d ds).1 hd
  refine ⟨?_, pairwise_sortByKeyDesc bestKey ds, (assignFaces_nodup _ _).1⟩
  exact assignFaces_eq_specAssign (sortDetections ds) []
    (fun d hd => hsorted d (hmem d hd)) (fun d hd => hid d (hmem d hd))

/-- C2, witness at scenario 5 of the spec: two detections both matching A
(0.71 / 0.63) and B (0.58 / 0.61, scaled by 100); the assignment follows the
spec rule and assigns A to the best face and B to the other. -/
theorem recognitionAssignmentSpecWitness :
    (recognizeAssign dsScenario = specAssign [] (sortDetections dsScenario) ∧
      (sortDetections dsScenario).Pairwise (fun d e => bestKey e ≤ bestKey d) ∧
      (((recognizeAssign dsScenario).filter (fun f => f.identity ≠ "Unknown")).map
        RecFace.identity).Nodup) ∧
    recognizeAssign dsScenario =
      [⟨"A", 71, (0, 0, 50, 50)⟩, ⟨"B", 61, (60, 0, 110, 50)⟩] :=
  ⟨recognitionAssignmentSpec dsScenario (by decide) (by decide), by decide⟩

theorem sweepStudents_eq (issuesOf : String → List String) :
    ∀ students : List StudentEntry,
      sweepStudents issuesOf students =
        ((students.filter (sweptAs "pass")).map StudentEntry.studentId,
         (students.filter sweptFailed).map StudentEntry.studentId,
         (students.filter (sweptAs "borderline")).map
           (fun e => ⟨e.studentId, issuesOf e.studentId⟩),
         students.countP sweptProcessed) := by
  intro students
  induction students with
  | nil => rfl
  | cons e rest ih =>
    rcases e with ⟨sid, hv, hj, oc⟩
    simp only [sweepStudents, ih]
    cases hv <;> cases hj <;> rcases oc with _ | c
    · simp [sweptAs, sweptFailed, sweptProcessed, List.countP_cons]
    · simp [sweptAs, sweptFailed, sweptProcessed, List.countP_cons]
    · simp [sweptAs, sweptFailed, sweptProcessed, List.countP_cons]
    · simp [sweptAs, sweptFailed, sweptProcessed, List.countP_cons]
    · simp [sweptAs, sweptFailed, sweptProcessed, List.countP_cons]
    · simp [sweptAs, sweptFailed, sweptProcessed, List.countP_cons]
    · simp [sweptAs, sweptFailed, sweptProcessed, List.countP_cons]
    · by_cases hc1 : c = "pass"
      · simp [sweptAs, sweptFailed, sweptProcessed, List.countP_cons, hc1]
      · by_cases hc2 : c = "borderline"
        · simp [sweptAs, sweptFailed, sweptProcessed, List.countP_cons, hc1, hc2]
        · simp [sweptAs, sweptFailed, sweptProcessed, List.countP_cons, hc1, hc2]

theorem countP_swept_split : ∀ l : List StudentEntry,
    l.countP sweptProcessed =
      l.countP (sweptAs "pass") + l.countP sweptFailed +
        l.countP (sweptAs "borderline") := by
  intro l
  induction l with
  | nil => rfl
  | cons e rest ih =>
    rcases e with ⟨sid, hv, hj, oc⟩
    simp only [List.countP_cons, ih]
    cases hv <;> cases hj <;> rcases oc with _ | c
    · simp [sweptAs, sweptFailed, sweptProcessed]
    · simp [sweptAs, sweptFailed, sweptProcessed]
    · simp [sweptAs, sweptFailed, sweptProcessed]
    · simp [sweptAs, sweptFailed, sweptProcessed]
    · simp [sweptAs, sweptFailed, sweptProcessed]
    · simp [sweptAs, sweptFailed, sweptProcessed]
    · simp [sweptAs, sweptFailed, sweptProcessed]
    · by_cases hc1 : c = "pass"
      · simp [sweptAs, sweptFailed, sweptProcessed, hc1]
        omega
      · by_cases hc2 : c = "borderline"
        · simp [sweptAs, sweptFailed, sweptProcessed, hc1, hc2]
          omega
        · simp [sweptAs, sweptFailed, sweptProcessed, hc1, hc2]
          omega

/-- C9: every batch quality report satisfies
`totalChecked = |passed| + |failed| + |borderline|`; moreover the three lists
are exactly the students with both files present whose processing completed
with the respective category (each such student in exactly one list), and
`totalChecked` counts exactly the completed students — students missing a
file or raising an exception contribute to nothing. -/
theorem batchReportTotals (dept year : String) (dirExists listOk : Bool)
    (issuesOf : String → List String) (students : List StudentEntry)
    (hd : dirExists = true) (hl : listOk = true) :
    (checkStudentDataQuality dept year dirExists listOk issuesOf students).totalChecked =
      (checkStudentDataQuality dept year dirExists listOk issuesOf students).passedStudents.length +
      (checkStudentDataQuality dept year dirExists listOk issuesOf students).failedStudents.length +
      (checkStudentDataQuality dept year dirExists listOk issuesOf students).borderlineStudents.length ∧
    (checkStudentDataQuality dept year dirExists listOk issuesOf students).passedStudents =
      (students.filter (sweptAs "pass")).map StudentEntry.studentId ∧
    (checkStudentDataQuality dept year dirExists listOk issuesOf students).failedStudents =
      (students.filter sweptFailed).map StudentEntry.studentId ∧
    (checkStudentDataQuality dept year dirExists listOk issuesOf students).borderlineStudents =
      (students.filter (sweptAs "borderline")).map
        (fun e => ⟨e.studentId, issuesOf e.studentId⟩) ∧
    (checkStudentDataQuality dept year dirExists listOk issuesOf students).totalChecked =
      students.countP sweptProcessed := by
  subst hd
  subst hl
  have hsweep := sweepStudents_eq issuesOf students
  have e : checkStudentDataQuality dept year true true issuesOf students =
      { department := dept, year := year,
        passedStudents := (students.filter (sweptAs "pass")).map StudentEntry.studentId,
        failedStudents := (students.filter sweptFailed).map StudentEntry.studentId,
        borderlineStudents := (students.filter (sweptAs "borderline")).map
          (fun e => ⟨e.studentId, issuesOf e.studentId⟩),
        totalChecked := students.countP sweptProcessed, errorMsg := none } := by
    simp [checkStudentDataQuality, hsweep]
  rw [e]
  refine ⟨?_, rfl, rfl, rfl, rfl⟩
  simp only [List.length_map]
  rw [countP_swept_split students, List.countP_eq_length_filter,
    List.countP_eq_length_filter, List.countP_eq_length_filter]

/-- C9, witness: a concrete batch with one passing, one borderline, one
failing, one missing-video and one exception-raising student has
`totalChecked = 3 = 1 + 1 + 1` and the expected lists. -/
theorem batchReportTotalsWitness :
    (checkStudentDataQuality "CSE" "2027" true true (fun _ => []) studentsScenario).totalChecked =
      (checkStudentDataQuality "CSE" "2027" true true (fun _ => []) studentsScenario).passedStudents.length +
      (checkStudentDataQuality "CSE" "2027" true true (fun _ => []) studentsScenario).failedStudents.length +
      (checkStudentDataQuality "CSE" "2027" true true (fun _ => []) studentsScenario).borderlineStudents.length ∧
    (checkStudentDataQuality "CSE" "2027" true true (fun _ => []) studentsScenario).passedStudents =
      (studentsScenario.filter (sweptAs "pass")).map StudentEntry.studentId ∧
    (checkStudentDataQuality "CSE" "2027" true true (fun _ => []) studentsScenario).failedStudents =
      (studentsScenario.filter sweptFailed).map StudentEntry.studentId ∧
    (checkStudentDataQuality "CSE" "2027" true true (fun _ => []) studentsScenario).borderlineStudents =
      (studentsScenario.filter (sweptAs "borderline")).map
        (fun e => ⟨e.studentId, (fun _ => ([] : List String)) e.studentId⟩) ∧
    (checkStudentDataQuality "CSE" "2027" true true (fun _ => []) studentsScenario).totalChecked =
      studentsScenario.countP sweptProcessed :=
  batchReportTotals "CSE" "2027" true true (fun _ => []) studentsScenario rfl rfl

theorem zip_append_left {α β : Type} :
    ∀ (l₁ l₂ : List α) (fd : List β), fd.length ≤ l₁.length →
      (l₁ ++ l₂).zip fd = l₁.zip fd := by
  intro l₁
  induction l₁ with
  | nil =>
    intro l₂ fd h
    have : fd = [] := List.eq_nil_of_length_eq_zero (Nat.le_zero.1 h)
    subst this
    simp
  | cons x xs ih =>
    intro l₂ fd h
    cases fd with
    | nil => simp
    | cons b bs =>
      simp only [List.cons_append, List.zip_cons_cons, List.cons.injEq, true_and]
      exact ih l₂ bs (by simpa using h)

/-- Once the loop hits the first frame with more than one face it `break`s:
the frames after it contribute nothing to the loop state. -/
theorem processFrames_break (bad : FrameData) (h2 : 1 < bad.faces.length) :
    ∀ (pre post : List FrameData) (st : QCLoopState) (idx : Nat),
      (∀ f ∈ pre, f.faces.length ≤ 1) →
      processFrames st idx (pre ++ bad :: post) = processFrames st idx (pre ++ [bad]) := by
  intro pre
  induction pre with
  | nil =>
    intro post st idx _
    have h0 : bad.faces.length > 0 := Nat.lt_trans Nat.zero_lt_one h2
    simp only [List.nil_append, processFrames, if_pos h0, if_pos h2]
  | cons f pre' ih =>
    intro post st idx hpre
    have hf : f.faces.length ≤ 1 := hpre f (List.mem_cons_self _ _)
    have hpre' : ∀ g ∈ pre', g.faces.length ≤ 1 :=
      fun g hg => hpre g (List.mem_cons_of_mem _ hg)
    by_cases h0 : f.faces.length > 0
    · have hne : ¬ f.faces.length > 1 := by omega
      simp only [List.cons_append, processFrames, if_pos h0, if_neg hne]
      exact ih post _ _ hpre'
    · simp only [List.cons_append, processFrames, if_neg h0]
      exact ih post _ _ hpre'

/-- The loop collects at most one `faces_data` entry per frame. -/
theorem processFrames_facesData_le :
    ∀ (l : List FrameData) (st : QCLoopState) (idx : Nat),
      (processFrames st idx l).facesData.length ≤ st.facesData.length + l.length := by
  intro l
  induction l with
  | nil => intro st idx; simp [processFrames]
  | cons f rest ih =>
    intro st idx
    by_cases h0 : f.faces.length > 0
    · by_cases h1 : f.faces.length > 1
      · simp only [processFrames, if_pos h0, if_pos h1]
        simp only [List.length_cons]
        omega
      · have hf1 : f.faces.length = 1 := by omega
        simp only [processFrames, if_pos h0, if_neg h1]
        refine le_trans (ih _ _) ?_
        simp [hf1]
        omega
    · simp only [processFrames, if_neg h0]
      refine le_trans (ih _ _) ?_
      simp

/-- Any list containing a multi-face frame drives `multiple_faces_critical`
to true. -/
theorem processFrames_critical (bad : FrameData) (h2 : 1 < bad.faces.length) :
    ∀ (pre : List FrameData) (st : QCLoopState) (idx : Nat),
      (processFrames st idx (pre ++ [bad])).multipleFacesCritical = true := by
  intro pre
  induction pre with
  | nil =>
    intro st idx
    have h0 : bad.faces.length > 0 := Nat.lt_trans Nat.zero_lt_one h2
    simp only [List.nil_append, processFrames, if_pos h0, if_pos h2]
  | cons f pre' ih =>
    intro st idx
    by_cases h0 : f.faces.length > 0
    · by_cases h1 : f.faces.length > 1
      · simp only [List.cons_append, processFrames, if_pos h0, if_pos h1]
      · simp only [List.cons_append, processFrames, if_pos h0, if_neg h1]
        exact ih _ _
    · simp only [List.cons_append, processFrames, if_neg h0]
      exact ih _ _

/-- C7: a video whose sampled frames contain a multi-face frame (the first
one at a known position) is categorized `fail` with the multi-face critical
issue, and the whole result equals the one computed on the prefix ending at
that frame — every metric, issue list and flag is identical; only the
`framesAnalyzed` count (the number of decoded sampled frames, recorded
before the loop) reflects the frames after the offending one. -/
theorem multiFaceShortCircuit (pose : PoseCap) (pre post : List FrameData)
    (bad : FrameData) (h1 : ∀ f ∈ pre, f.faces.length ≤ 1)
    (h2 : 1 < bad.faces.length) :
    (checkSingleVideoQuality pose true (pre ++ bad :: post)).category = "fail" ∧
    "Multiple faces detected in at least one frame (critical fail)" ∈
      (checkSingleVideoQuality pose true (pre ++ bad :: post)).criticalIssues ∧
    checkSingleVideoQuality pose true (pre ++ bad :: post) =
      { checkSingleVideoQuality pose true (pre ++ [bad]) with
        details := (checkSingleVideoQuality pose true (pre ++ [bad])).details.map
          (fun d => { d with framesAnalyzed := (pre ++ bad :: post).length }) } := by
  have hst : processFrames initQCState 0 (pre ++ bad :: post) =
      processFrames initQCState 0 (pre ++ [bad]) :=
    processFrames_break bad h2 pre post initQCState 0 h1
  have hcrit : (processFrames initQCState 0 (pre ++ [bad])).multipleFacesCritical = true :=
    processFrames_critical bad h2 pre initQCState 0
  have hlen : (processFrames initQCState 0 (pre ++ [bad])).facesData.length ≤
      (pre ++ [bad]).length := by
    have := processFrames_facesData_le (pre ++ [bad]) initQCState 0
    simpa [initQCState] using this
  have hzip : (pre ++ bad :: post).zip
        (processFrames initQCState 0 (pre ++ [bad])).facesData =
      (pre ++ [bad]).zip (processFrames initQCState 0 (pre ++ [bad])).facesData := by
    have hassoc : pre ++ bad :: post = (pre ++ [bad]) ++ post := by simp
    rw [hassoc]
    exact zip_append_left (pre ++ [bad]) post _ hlen
  have hne1 : ¬ (pre ++ bad :: post) = ([] : List FrameData) := by simp
  have hne2 : ¬ (pre ++ [bad]) = ([] : List FrameData) := by simp
  have e1 : checkSingleVideoQuality pose true (pre ++ bad :: post) =
      qcAssemble (pre ++ bad :: post).length
        (processFrames initQCState 0 (pre ++ [bad]))
        (checkPoseDiversity pose (pre ++ [bad])
          (processFrames initQCState 0 (pre ++ [bad])).facesData) := by
    simp only [checkSingleVideoQuality, not_true_eq_false, if_false, if_neg hne1, hst,
      checkPoseDiversity, hzip]
  have e2 : checkSingleVideoQuality pose true (pre ++ [bad]) =
      qcAssemble (pre ++ [bad]).length
        (processFrames initQCState 0 (pre ++ [bad]))
        (checkPoseDiversity pose (pre ++ [bad])
          (processFrames initQCState 0 (pre ++ [bad])).facesData) := by
    simp only [checkSingleVideoQuality, not_true_eq_false, if_false, if_neg hne2]
  have hcl : (if (processFrames initQCState 0 (pre ++ [bad])).totalFaces < 3 then
        ["No face detected or very few faces"] else []) ++
      (if (processFrames initQCState 0 (pre ++ [bad])).multipleFacesCritical = true then
        ["Multiple faces detected in at least one frame (critical fail)"] else []) ≠ [] := by
    simp [hcrit]
  have hcat : ∀ n pc, (qcAssemble n (processFrames initQCState 0 (pre ++ [bad])) pc).category =
      "fail" ∧
      "Multiple faces detected in at least one frame (critical fail)" ∈
        (qcAssemble n (processFrames initQCState 0 (pre ++ [bad])) pc).criticalIssues := by
    intro n pc
    constructor
    · simp only [qcAssemble]
      rw [if_pos hcl]
    · simp only [qcAssemble, hcrit]
      simp
  refine ⟨?_, ?_, ?_⟩
  · rw [e1]; exact (hcat _ _).1
  · rw [e1]; exact (hcat _ _).2
  · rw [e1, e2]
    simp only [qcAssemble]
    rfl

/-- C7, witness: one clean frame, then a two-face frame, then another clean
frame — the result is a fail with the multi-face critical issue and equals
the two-frame prefix computation up to `framesAnalyzed`. -/
theorem multiFaceShortCircuitWitness :
    (checkSingleVideoQuality poseUnknownCap true
        ([cleanFrame] ++ twoFaceFrame :: [cleanFrame])).category = "fail" ∧
    "Multiple faces detected in at least one frame (critical fail)" ∈
      (checkSingleVideoQuality poseUnknownCap true
        ([cleanFrame] ++ twoFaceFrame :: [cleanFrame])).criticalIssues ∧
    checkSingleVideoQuality poseUnknownCap true
        ([cleanFrame] ++ twoFaceFrame :: [cleanFrame]) =
      { checkSingleVideoQuality poseUnknownCap true ([cleanFrame] ++ [twoFaceFrame]) with
        details := (checkSingleVideoQuality poseUnknownCap true
          ([cleanFrame] ++ [twoFaceFrame])).details.map
            (fun d => { d with
              framesAnalyzed := ([cleanFrame] ++ twoFaceFrame :: [cleanFrame]).length }) } :=
  multiFaceShortCircuit poseUnknownCap [cleanFrame] [cleanFrame] twoFaceFrame
    (by decide) (by decide)

end FaceGallery
